import Mathlib

/-!
Shallow embedding of `src/util/stock_analyzer.py` (class `StockAnalyzer`):
a stock-relevance classifier, a WeChat-webhook notifier, and an
orchestrator (`analyze_and_push`) with an in-process dedup set
(`pushed_weibo_ids`).  External HTTP responses are passed in as explicit
oracle values; the `datetime`/`pytz` collaborators are modelled by an
explicit civil-calendar datetime type and parsers for the three input
shapes the source handles.
-/

namespace StockPush

/-- Python truthiness of an optional string (`None` and `""` are falsy). -/
def optTruthy : Option String → Bool
  | none => false
  | some s => !s.isEmpty

/-- Python `pat in s` substring test on code points. -/
def containsSub (s pat : String) : Bool :=
  s.toList.tails.any (fun t => pat.toList.isPrefixOf t)

/-! ## Datetime model (the `datetime` + `pytz` collaborators) -/

/-- An aware or naive civil datetime; `offsetMin = none` is a naive value
(Python interprets naive datetimes in the system-local zone). -/
structure DT where
  year : Int
  month : Nat
  day : Nat
  hour : Nat
  minute : Nat
  second : Nat
  offsetMin : Option Int
deriving DecidableEq, Repr

def isLeap (y : Int) : Bool :=
  (y % 4 == 0 && y % 100 != 0) || y % 400 == 0

def daysInMonth (y : Int) (m : Nat) : Nat :=
  match m with
  | 1 => 31 | 2 => if isLeap y then 29 else 28 | 3 => 31 | 4 => 30
  | 5 => 31 | 6 => 30 | 7 => 31 | 8 => 31
  | 9 => 30 | 10 => 31 | 11 => 30 | 12 => 31
  | _ => 0

/-- Serial day number of a civil date (days since 1970-01-01). -/
def daysFromCivil (y : Int) (m d : Nat) : Int :=
  let yy : Int := if m ≤ 2 then y - 1 else y
  let era : Int := yy / 400
  let yoe : Nat := (yy % 400).toNat
  let mp : Nat := if m > 2 then m - 3 else m + 9
  let doy : Nat := (153 * mp + 2) / 5 + d - 1
  let doe : Nat := yoe * 365 + yoe / 4 - yoe / 100 + doy
  era * 146097 + (doe : Int) - 719468

/-- Civil date from a serial day number (inverse of `daysFromCivil`). -/
def civilFromDays (z0 : Int) : Int × Nat × Nat :=
  let z : Int := z0 + 719468
  let era : Int := z / 146097
  let doe : Nat := (z % 146097).toNat
  let yoe : Nat := (doe - doe / 1460 + doe / 36524 - doe / 146096) / 365
  let doy : Nat := doe - (365 * yoe + yoe / 4 - yoe / 100)
  let mp : Nat := (5 * doy + 2) / 153
  let d : Nat := doy - (153 * mp + 2) / 5 + 1
  let m : Nat := if mp < 10 then mp + 3 else mp - 9
  ((era * 400 + yoe : Int) + (if m ≤ 2 then 1 else 0), m, d)

/-- Python `dt.astimezone(pytz.timezone('Asia/Shanghai'))`: Shanghai is a
fixed UTC+8 for the modern dates this pipeline sees; a naive datetime is
interpreted at the system-local offset `sys` (in minutes). -/
def toBeijing (sys : Int) (dt : DT) : DT :=
  let off : Int := dt.offsetMin.getD sys
  let totalMin : Int :=
    daysFromCivil dt.year dt.month dt.day * 1440
      + dt.hour * 60 + dt.minute + (480 - off)
  let dayNo : Int := totalMin / 1440
  let minOfDay : Nat := (totalMin % 1440).toNat
  let c := civilFromDays dayNo
  ⟨c.1, c.2.1, c.2.2, minOfDay / 60, minOfDay % 60, dt.second, some 480⟩

def pad2 (n : Nat) : String :=
  if n < 10 then "0" ++ toString n else toString n

def pad4 (n : Nat) : String :=
  if n < 10 then "000" ++ toString n
  else if n < 100 then "00" ++ toString n
  else if n < 1000 then "0" ++ toString n
  else toString n

/-- Python `dt.strftime('%Y-%m-%d %H:%M:%S')`. -/
def formatDT (dt : DT) : String :=
  pad4 dt.year.toNat ++ "-" ++ pad2 dt.month ++ "-" ++ pad2 dt.day ++ " "
    ++ pad2 dt.hour ++ ":" ++ pad2 dt.minute ++ ":" ++ pad2 dt.second

/-- Splits a character list at every occurrence of `sep` (the behaviour of
Python `str.split(sep)` for a one-character separator). -/
def splitChar (sep : Char) : List Char → List (List Char)
  | [] => [[]]
  | c :: cs =>
    if c = sep then [] :: splitChar sep cs
    else
      match splitChar sep cs with
      | g :: gs => (c :: g) :: gs
      | [] => [[c]]

/-- Numeric value of a nonempty all-digit character list. -/
def digitsToNat? (cs : List Char) : Option Nat :=
  if cs ≠ [] ∧ cs.all Char.isDigit then
    some (cs.foldl (fun acc c => acc * 10 + (c.toNat - 48)) 0)
  else none

/-- Reads exactly `k` leading decimal digits. -/
def takeDigits : Nat → List Char → Option (Nat × List Char)
  | 0, cs => some (0, cs)
  | _ + 1, [] => none
  | k + 1, c :: cs =>
    if c.isDigit then
      (takeDigits k cs).map (fun r =>
        (r.1 + (c.toNat - 48) * 10 ^ k, r.2))
    else none

/-- Decimal value of a 1- or 2-digit field (Python strptime `%d`/`%H`…). -/
def flexDigits2 (cs : List Char) : Option Nat :=
  if cs.length = 1 ∨ cs.length = 2 then digitsToNat? cs else none

/-- Python `str.lower()` restricted to ASCII letters. -/
def lowerStr (s : String) : String :=
  (s.toList.map Char.toLower).asString

/-- Whitespace stripped by Python `str.strip()` (the ASCII part). -/
def isPySpace (c : Char) : Bool :=
  c = ' ' || c = '\t' || c = '\n' || c = '\x0d' || c = '\x0b' || c = '\x0c'

/-- Python `str.strip()`. -/
def pyStrip (s : String) : String :=
  (((s.toList.dropWhile isPySpace).reverse.dropWhile isPySpace).reverse).asString

def validDate (y : Int) (mo d : Nat) : Bool :=
  1 ≤ mo && mo ≤ 12 && 1 ≤ d && d ≤ daysInMonth y mo

def validTime (h mi s : Nat) : Bool :=
  h < 24 && mi < 60 && s < 60

/-- Parses `±HH:MM`, `±HHMM` or `Z` into offset minutes. -/
def parseOffset (cs : List Char) : Option Int :=
  match cs with
  | ['Z'] => some 0
  | sign :: rest => do
    let sgn : Int ← if sign = '+' then some 1 else if sign = '-' then some (-1) else none
    let (hh, rest1) ← takeDigits 2 rest
    let rest2 ← match rest1 with
      | ':' :: r => some r
      | r => some r
    let (mm, rest3) ← takeDigits 2 rest2
    if rest3 = [] ∧ mm < 60 ∧ hh * 60 + mm < 1440 then
      some (sgn * (hh * 60 + mm))
    else none
  | [] => none

/-- Model of Python `datetime.fromisoformat`: `YYYY-MM-DD`, optionally a
`T` or space separator, `HH:MM[:SS]`, optionally a UTC offset. -/
def fromisoformat (cs : List Char) : Option DT := do
  let (y, r1) ← takeDigits 4 cs
  let r2 ← match r1 with | '-' :: r => some r | _ => none
  let (mo, r3) ← takeDigits 2 r2
  let r4 ← match r3 with | '-' :: r => some r | _ => none
  let (d, r5) ← takeDigits 2 r4
  if !validDate y mo d then none
  else match r5 with
  | [] => some ⟨y, mo, d, 0, 0, 0, none⟩
  | sep :: r6 => do
    if sep ≠ 'T' ∧ sep ≠ ' ' then none
    else do
      let (h, r7) ← takeDigits 2 r6
      let r8 ← match r7 with | ':' :: r => some r | _ => none
      let (mi, r9) ← takeDigits 2 r8
      let (sec, r10) ← match r9 with
        | ':' :: r => (takeDigits 2 r)
        | r => some (0, r)
      if !validTime h mi sec then none
      else match r10 with
      | [] => some ⟨y, mo, d, h, mi, sec, none⟩
      | rest => (parseOffset rest).map (fun off => ⟨y, mo, d, h, mi, sec, some off⟩)

def weekdayNames : List String :=
  ["mon", "tue", "wed", "thu", "fri", "sat", "sun",
   "monday", "tuesday", "wednesday", "thursday", "friday", "saturday", "sunday"]

def monthFromName (s : String) : Option Nat :=
  match ["jan", "feb", "mar", "apr", "may", "jun",
         "jul", "aug", "sep", "oct", "nov", "dec"].indexOf? (lowerStr s) with
  | some i => some (i + 1)
  | none =>
    match ["january", "february", "march", "april", "may", "june", "july",
           "august", "september", "october", "november", "december"].indexOf? (lowerStr s) with
    | some i => some (i + 1)
    | none => none

/-- Model of Python `datetime.strptime(s, '%a %b %d %H:%M:%S %z %Y')`
(the weibo `created_at` shape); the parsed weekday name is not checked
against the date, matching CPython. -/
def strptimeWeibo (s : String) : Option DT := do
  match splitChar ' ' s.toList with
  | [wd, mon, dd, tm, off, yr] => do
    if !weekdayNames.contains (lowerStr wd.asString) then none
    else do
      let mo ← monthFromName mon.asString
      let d ← flexDigits2 dd
      let (h, mi, sec) ← match splitChar ':' tm with
        | [hs, ms, ss] => do
          let h ← flexDigits2 hs
          let mi ← flexDigits2 ms
          let sec ← flexDigits2 ss
          some (h, mi, sec)
        | _ => none
      let offMin ← parseOffset off
      let y ← if yr.length = 4 then digitsToNat? yr else none
      if validDate y mo d ∧ validTime h mi sec then
        some ⟨y, mo, d, h, mi, sec, some offMin⟩
      else none
  | _ => none

/-- Model of Python `datetime.strptime(s, '%Y-%m-%d %H:%M:%S')` (naive). -/
def strptimeBare (s : String) : Option DT := do
  match splitChar ' ' s.toList with
  | [ds, tm] => do
    let (y, mo, d) ← match splitChar '-' ds with
      | [ys, ms, dds] => do
        let y ← if ys.length = 4 then digitsToNat? ys else none
        let mo ← flexDigits2 ms
        let d ← flexDigits2 dds
        some (y, mo, d)
      | _ => none
    let (h, mi, sec) ← match splitChar ':' tm with
      | [hs, ms, ss] => do
        let h ← flexDigits2 hs
        let mi ← flexDigits2 ms
        let sec ← flexDigits2 ss
        some (h, mi, sec)
      | _ => none
    if validDate y mo d ∧ validTime h mi sec then
      some ⟨y, mo, d, h, mi, sec, none⟩
    else none
  | _ => none

def countSpaces (s : String) : Nat :=
  (s.toList.filter (· = ' ')).length

/-- The three-branch dispatch of `push_to_weixin`'s time parsing
(source lines 146-157): `'T' in created_at` selects ISO, then
`'+' in created_at or created_at.count(' ') >= 4` selects the weibo
shape, else the bare shape localized to Asia/Shanghai (+480 min). -/
def parseCreatedAt (s : String) : Option DT :=
  if s.toList.contains 'T' then
    fromisoformat
      (s.toList.flatMap (fun c => if c = 'Z' then "+00:00".toList else [c]))
  else if s.toList.contains '+' || countSpaces s ≥ 4 then
    strptimeWeibo s
  else
    (strptimeBare s).map (fun dt => { dt with offsetMin := some 480 })

/-- Source lines 142-165: empty `created_at` keeps `beijing_time_str`
empty; a parse failure falls back to the raw string. -/
def beijingTimeStr (sys : Int) (created_at : String) : String :=
  if created_at.isEmpty then ""
  else
    match parseCreatedAt created_at with
    | some dt => formatDT (toBeijing sys dt)
    | none => created_at

/-! ## Data model -/

/-- The `{'is_stock_related': …, 'analysis': …}` mapping. -/
structure AnalysisResult where
  is_stock_related : Bool
  analysis : String
deriving DecidableEq, Repr

/-- A weibo post mapping: the keys the source reads, plus `extra` for
every other key (never touched by the source). -/
structure Post where
  id : Option String
  text : Option String
  user_id : Option String
  created_at : Option String
  stock_analysis : Option AnalysisResult
  extra : List (String × String)
deriving DecidableEq, Repr

/-- The `stock_config` fields the constructor reads. -/
structure Config where
  enabled : Bool
  api_key : Option String
  webhook_url : Option String
  model : String
  max_retries : Nat
deriving DecidableEq, Repr

/-! ## Relevance classifier (`is_stock_related`) -/

/-- Outcome of one attempt against the classification endpoint: `ok` is an
HTTP 200 whose body parsed to a reply string; `httpError` is a non-200
status; `fault` is any transport or body-parsing exception. -/
inductive ApiAttempt where
  | fault
  | httpError (code : Nat)
  | ok (content : String)
deriving DecidableEq, Repr

/-- Observable side effects of the classifier: endpoint invocations (with
the user prompt sent) and inserted delays.  The source never sleeps
between retries, so no `sleep` effect is ever emitted. -/
inductive Effect where
  | callEndpoint (prompt : String)
  | sleep (seconds : Nat)
deriving DecidableEq, Repr

/-- The user prompt built around the post text (source lines 60-67). -/
def classifyPrompt (text : String) : String :=
  "请判断以下微博内容是否与股票、证券、投资相关。\n如果相关，请简要说明涉及的股票信息（如股票代码、公司名称、投资观点等）；\n如果不相关，只回复\"不相关\"。\n\n微博内容：\n"
    ++ text ++ "\n\n请直接回答，不要有多余的解释。"

/-- The retry loop `for attempt in range(self.max_retries)` (source lines
86-117); `fuel` counts the remaining range elements, `i` is `attempt`. -/
def classifyGo (maxr : Nat) (attempts : Nat → ApiAttempt) (prompt : String) :
    Nat → Nat → (Bool × String) × List Effect
  | 0, _ => ((false, ""), [])
  | fuel + 1, i =>
    match attempts i with
    | .ok content =>
      let analysis := pyStrip content
      ((!containsSub analysis "不相关", analysis), [.callEndpoint prompt])
    | _ =>
      if i < maxr - 1 then
        let r := classifyGo maxr attempts prompt fuel (i + 1)
        (r.1, .callEndpoint prompt :: r.2)
      else
        ((false, ""), [.callEndpoint prompt])

/-- Source lines 41-117: returns the `(is_related, analysis)` pair and the
trace of effects against the classification endpoint. -/
def is_stock_related (cfg : Config) (attempts : Nat → ApiAttempt)
    (text : String) : (Bool × String) × List Effect :=
  if !cfg.enabled || !optTruthy cfg.api_key then ((false, ""), [])
  else classifyGo cfg.max_retries attempts (classifyPrompt text) cfg.max_retries 0

/-! ## Webhook notifier (`push_to_weixin`) -/

/-- Outcome of the single webhook POST: `fault` is any exception in the
try block (transport or body parsing); `resp` carries the HTTP status and
the `errcode` field of the parsed body (`none` when absent). -/
inductive WebhookResult where
  | fault
  | resp (status : Nat) (errcode : Option Int)
deriving DecidableEq, Repr

/-- What `push_to_weixin` did: the message content it sent (if a request
was made at all) and its boolean return value. -/
structure PushOutcome where
  payload : Option String
  ok : Bool
deriving DecidableEq, Repr

/-- Source line 168: the permalink, built only when both ids are truthy. -/
def weiboUrl (w : Post) : String :=
  if optTruthy w.user_id && optTruthy w.id then
    "https://weibo.com/" ++ w.user_id.getD "" ++ "/" ++ w.id.getD ""
  else ""

/-- Source lines 170-178: the message is the join of a time part (when a
timestamp string is available), `"\n" ++ text`, and a link part. -/
def buildMessage (sys : Int) (w : Post) : String :=
  let text := w.text.getD ""
  let bts := beijingTimeStr sys (w.created_at.getD "")
  let url := weiboUrl w
  String.join
    ((if bts ≠ "" then ["发博时间: " ++ bts] else [])
      ++ ["\n" ++ text]
      ++ (if url ≠ "" then ["\n\n链接: " ++ url] else []))

/-- Source lines 119-209.  The `content` parameter is kept for signature
compatibility and never used (source line 124 says so).  Success requires
status 200 and `errcode == 0`; everything else returns `false`. -/
def push_to_weixin (cfg : Config) (sys : Int) (content : String)
    (r : WebhookResult) (w : Post) : PushOutcome :=
  if !optTruthy cfg.webhook_url then ⟨none, false⟩
  else
    let message := buildMessage sys w
    match r with
    | .fault => ⟨some message, false⟩
    | .resp status errcode => ⟨some message, status == 200 && errcode == some 0⟩

/-! ## Orchestrator (`analyze_and_push`) -/

/-- Which collaborators a run of `analyze_and_push` invoked, in order;
`notify` records `push_to_weixin`'s return value. -/
inductive Call where
  | classify
  | notify (ok : Bool)
deriving DecidableEq, Repr

/-- Result of one run: the returned post, the new `pushed_weibo_ids`, and
the collaborator call trace. -/
structure RunResult where
  post : Post
  pushed : List String
  calls : List Call
deriving DecidableEq, Repr

/-- The sentinel attached to an already-pushed post (source lines 235-239). -/
def sentinelAnalysis : AnalysisResult :=
  ⟨true, "(已推送，跳过重复分析)"⟩

/-- Source lines 211-259, with `pushed_weibo_ids` passed explicitly. -/
def analyze_and_push (cfg : Config) (sys : Int) (attempts : Nat → ApiAttempt)
    (r : WebhookResult) (pushed : List String) (w : Post) : RunResult :=
  if !cfg.enabled then ⟨w, pushed, []⟩
  else
    let text := w.text.getD ""
    if text.isEmpty then ⟨w, pushed, []⟩
    else
      let wid := w.id
      if optTruthy wid && pushed.contains (wid.getD "") then
        if w.stock_analysis.isNone then
          ⟨{ w with stock_analysis := some sentinelAnalysis }, pushed, []⟩
        else ⟨w, pushed, []⟩
      else
        let cls := is_stock_related cfg attempts text
        let is_related := cls.1.1
        let analysis := cls.1.2
        let w2 := { w with stock_analysis := some ⟨is_related, analysis⟩ }
        if is_related && optTruthy wid then
          let p := push_to_weixin cfg sys analysis r w2
          if p.ok then ⟨w2, wid.getD "" :: pushed, [.classify, .notify true]⟩
          else ⟨w2, pushed, [.classify, .notify false]⟩
        else ⟨w2, pushed, [.classify]⟩

/-! ## Shared concrete inputs for witnesses -/

def sampleConfig : Config :=
  ⟨true, some "key", some "https://qyapi.weixin.qq.com/hook", "glm-4-flash", 3⟩

def samplePost : Post :=
  ⟨some "123", some "hello", some "u1", some "2025-12-16 10:00:00", none, [("source", "app")]⟩

/-! ## Theorems -/

theorem string_isEmpty_false {s : String} (h : s ≠ "") : s.isEmpty = false := by
  rcases hb : s.isEmpty with _ | _
  · rfl
  · exact absurd ((String.isEmpty_iff s).mp hb) h

/-- C6: `push_to_weixin` returns `true` iff the webhook URL is configured
and the webhook answered HTTP 200 with body field `errcode = 0`; every
other outcome (no URL, non-200, non-zero or missing `errcode`, transport
fault) returns `false`. -/
theorem push_to_weixin_ok_iff (cfg : Config) (sys : Int) (content : String)
    (r : WebhookResult) (w : Post) :
    (push_to_weixin cfg sys content r w).ok = true ↔
      optTruthy cfg.webhook_url = true ∧ r = .resp 200 (some 0) := by
  rcases hurl : optTruthy cfg.webhook_url <;> cases r <;>
    simp_all [push_to_weixin]

/-- C10: the `content` argument of `push_to_weixin` (the AI analysis text)
never influences the payload sent or the returned boolean. -/
theorem push_to_weixin_ignores_content (cfg : Config) (sys : Int)
    (c1 c2 : String) (r : WebhookResult) (w : Post) :
    push_to_weixin cfg sys c1 r w = push_to_weixin cfg sys c2 r w := rfl

/-- C8: with the feature disabled, or with empty/missing post text,
`analyze_and_push` returns the post unchanged, leaves the delivered set
unchanged, and invokes neither the classifier nor the notifier. -/
theorem analyze_disabled_or_empty_unchanged (cfg : Config) (sys : Int)
    (attempts : Nat → ApiAttempt) (r : WebhookResult) (pushed : List String)
    (w : Post) (h : cfg.enabled = false ∨ w.text.getD "" = "") :
    analyze_and_push cfg sys attempts r pushed w = ⟨w, pushed, []⟩ := by
  unfold analyze_and_push
  rcases h with h | h
  · simp [h]
  · rcases hen : cfg.enabled <;>
      simp [h, hen, show ("" : String).isEmpty = true from rfl]

theorem analyze_disabled_or_empty_unchanged_witness :
    analyze_and_push ⟨false, none, none, "glm-4-flash", 3⟩ 480
        (fun _ => .fault) .fault [] samplePost
      = ⟨samplePost, [], []⟩ :=
  analyze_disabled_or_empty_unchanged _ 480 _ _ _ samplePost (Or.inl rfl)

theorem analyze_post_shape (cfg : Config) (sys : Int)
    (attempts : Nat → ApiAttempt) (r : WebhookResult) (pushed : List String)
    (w : Post) :
    ∃ sa, (analyze_and_push cfg sys attempts r pushed w).post
      = { w with stock_analysis := sa } := by
  simp only [analyze_and_push]
  repeat' split
  all_goals exact ⟨_, rfl⟩

/-- C9: on every execution path, `analyze_and_push` returns a post that
agrees with its input on every field other than `stock_analysis`. -/
theorem analyze_and_push_frame (cfg : Config) (sys : Int)
    (attempts : Nat → ApiAttempt) (r : WebhookResult) (pushed : List String)
    (w : Post) :
    (analyze_and_push cfg sys attempts r pushed w).post.id = w.id ∧
    (analyze_and_push cfg sys attempts r pushed w).post.text = w.text ∧
    (analyze_and_push cfg sys attempts r pushed w).post.user_id = w.user_id ∧
    (analyze_and_push cfg sys attempts r pushed w).post.created_at = w.created_at ∧
    (analyze_and_push cfg sys attempts r pushed w).post.extra = w.extra := by
  obtain ⟨sa, hsa⟩ := analyze_post_shape cfg sys attempts r pushed w
  rw [hsa]
  exact ⟨rfl, rfl, rfl, rfl, rfl⟩

/-- C5: for a post whose identifier is already in the delivered set (with
the feature enabled and non-empty text), neither the classifier nor the
notifier is invoked, the delivered set is unchanged, and the sentinel
analysis is attached exactly when the post does not already carry a
`stock_analysis`. -/
theorem analyze_already_pushed (cfg : Config) (sys : Int)
    (attempts : Nat → ApiAttempt) (r : WebhookResult) (pushed : List String)
    (w : Post) (hen : cfg.enabled = true) (htext : w.text.getD "" ≠ "")
    (hid : optTruthy w.id = true)
    (hmem : pushed.contains (w.id.getD "") = true) :
    analyze_and_push cfg sys attempts r pushed w =
      ⟨if w.stock_analysis.isNone then
          { w with stock_analysis := some sentinelAnalysis }
        else w, pushed, []⟩ := by
  simp only [analyze_and_push, hen, hid, hmem, Bool.not_true, Bool.and_self,
    string_isEmpty_false htext, Bool.false_eq_true, if_false, if_true]
  split <;> rfl

theorem analyze_already_pushed_witness :
    analyze_and_push sampleConfig 480 (fun _ => .fault) .fault ["123"] samplePost
      = ⟨{ samplePost with stock_analysis := some sentinelAnalysis }, ["123"], []⟩ :=
  analyze_already_pushed sampleConfig 480 (fun _ => .fault) .fault ["123"]
    samplePost rfl (by decide) rfl rfl

/-- C1: after a run of `analyze_and_push`, an identifier is in the
delivered set iff it was there before, or this run's webhook delivery for
this post's identifier returned success; nothing is recorded without a
successful `push_to_weixin`. -/
theorem delivered_set_invariant (cfg : Config) (sys : Int)
    (attempts : Nat → ApiAttempt) (r : WebhookResult) (pushed : List String)
    (w : Post) (x : String) :
    (x ∈ (analyze_and_push cfg sys attempts r pushed w).pushed ↔
      x ∈ pushed ∨
        (Call.notify true ∈ (analyze_and_push cfg sys attempts r pushed w).calls
          ∧ w.id = some x)) := by
  simp only [analyze_and_push]
  repeat' split
  all_goals simp
  rename_i hcond hok
  have hid : optTruthy w.id = true := ((Bool.and_eq_true _ _).mp hcond).2
  rcases hw : w.id with _ | s
  · rw [hw] at hid; simp [optTruthy] at hid
  · simp only [Option.getD_some, Option.some.injEq]
    constructor
    · rintro (rfl | hx)
      · exact Or.inr rfl
      · exact Or.inl hx
    · rintro (hx | rfl)
      · exact Or.inr hx
      · exact Or.inl rfl

theorem formatDT_ne_empty (dt : DT) : formatDT dt ≠ "" := by
  intro h
  have hl := congrArg String.length h
  simp only [formatDT, String.length_append,
    show ("-" : String).length = 1 from rfl,
    show (" " : String).length = 1 from rfl,
    show (":" : String).length = 1 from rfl,
    show ("" : String).length = 0 from rfl] at hl
  omega

theorem beijingTimeStr_eq_empty_iff (sys : Int) (s : String) :
    beijingTimeStr sys s = "" ↔ s = "" := by
  constructor
  · intro h
    by_contra hs
    unfold beijingTimeStr at h
    rw [string_isEmpty_false hs] at h
    simp only [Bool.false_eq_true, if_false] at h
    rcases hp : parseCreatedAt s with _ | dt
    · rw [hp] at h; exact hs h
    · rw [hp] at h; exact formatDT_ne_empty _ h
  · intro h; rw [h]; rfl

theorem weiboUrl_ne_empty_iff (w : Post) :
    weiboUrl w ≠ "" ↔ (optTruthy w.user_id && optTruthy w.id) = true := by
  unfold weiboUrl
  split
  · rename_i hc
    simp only [hc, iff_true]
    intro h
    have hl := congrArg String.length h
    simp only [String.length_append,
      show ("https://weibo.com/" : String).length = 18 from rfl,
      show ("/" : String).length = 1 from rfl,
      show ("" : String).length = 0 from rfl] at hl
    omega
  · rename_i hc
    simp only [Bool.not_eq_true] at hc
    simp [hc]

/-- C7 (amended): the message is, in order, the `发博时间` line when a
timestamp string is available, then a single newline and the raw text,
then a blank line and the `链接` line when a permalink was constructed;
the time line is present exactly when `created_at` is non-empty and the
link exactly when both ids are truthy. -/
theorem buildMessage_layout (sys : Int) (w : Post) :
    buildMessage sys w =
      (if beijingTimeStr sys (w.created_at.getD "") ≠ "" then
          "发博时间: " ++ beijingTimeStr sys (w.created_at.getD "")
        else "")
        ++ ("\n" ++ w.text.getD "")
        ++ (if weiboUrl w ≠ "" then "\n\n链接: " ++ weiboUrl w else "") ∧
    (beijingTimeStr sys (w.created_at.getD "") = "" ↔ w.created_at.getD "" = "") ∧
    (weiboUrl w ≠ "" ↔ (optTruthy w.user_id && optTruthy w.id) = true) := by
  refine ⟨?_, beijingTimeStr_eq_empty_iff sys _, weiboUrl_ne_empty_iff w⟩
  unfold buildMessage
  by_cases hb : beijingTimeStr sys (w.created_at.getD "") = "" <;>
    by_cases hu : weiboUrl w = "" <;>
      simp [hb, hu, String.join, String.append_assoc]

/-- C7 (counterexample to the claim as stated): on a concrete post the
time segment and the text segment are separated by a single newline, not
a blank line, so the blank-line-separated rendering differs from the
actual message. -/
theorem buildMessage_layout_counterexample :
    buildMessage 480 samplePost
        = "发博时间: 2025-12-16 10:00:00\nhello\n\n链接: https://weibo.com/u1/123" ∧
    containsSub (buildMessage 480 samplePost) "2025-12-16 10:00:00\nhello" = true ∧
    containsSub (buildMessage 480 samplePost) "2025-12-16 10:00:00\n\nhello" = false ∧
    buildMessage 480 samplePost
        ≠ "发博时间: 2025-12-16 10:00:00\n\nhello\n\n链接: https://weibo.com/u1/123" :=
  ⟨rfl, by decide, by decide, by decide⟩

/-- C2 (against the claim): the weibo-format timestamp
`"Thu Dec 18 08:33:17 +0800 2025"` contains the character `T` (in
`"Thu"`), so the source's first branch hands it to `fromisoformat`, which
fails, and the raw string is used verbatim — not the normalized
`"2025-12-18 08:33:17"`.  The shadowed weibo-format branch would have
produced exactly the normalization the claim states, and the raw string is
what the message's time line carries. -/
theorem thu_timestamp_not_normalized :
    beijingTimeStr 480 "Thu Dec 18 08:33:17 +0800 2025"
        = "Thu Dec 18 08:33:17 +0800 2025" ∧
    beijingTimeStr 480 "Thu Dec 18 08:33:17 +0800 2025" ≠ "2025-12-18 08:33:17" ∧
    (strptimeWeibo "Thu Dec 18 08:33:17 +0800 2025").map
        (fun dt => formatDT (toBeijing 480 dt)) = some "2025-12-18 08:33:17" ∧
    buildMessage 480
        ⟨some "123", some "hi", some "u1",
          some "Thu Dec 18 08:33:17 +0800 2025", none, []⟩
      = "发博时间: Thu Dec 18 08:33:17 +0800 2025\nhi\n\n链接: https://weibo.com/u1/123" :=
  ⟨rfl, by decide, rfl, rfl⟩

theorem classifyGo_allfail (maxr : Nat) (attempts : Nat → ApiAttempt)
    (prompt : String) :
    ∀ fuel i, fuel + i = maxr → (∀ j c, attempts j ≠ .ok c) →
      classifyGo maxr attempts prompt fuel i
        = ((false, ""), List.replicate fuel (.callEndpoint prompt)) := by
  intro fuel
  induction fuel with
  | zero => intro i _ _; rfl
  | succ f ih =>
    intro i hfi hf
    unfold classifyGo
    rcases ha : attempts i with _ | code | c
    · by_cases hlt : i < maxr - 1
      · simp only [if_pos hlt, ih (i + 1) (by omega) hf, List.replicate_succ]
      · have hf0 : f = 0 := by omega
        subst hf0
        simp [if_neg hlt, List.replicate]
    · by_cases hlt : i < maxr - 1
      · simp only [if_pos hlt, ih (i + 1) (by omega) hf, List.replicate_succ]
      · have hf0 : f = 0 := by omega
        subst hf0
        simp [if_neg hlt, List.replicate]
    · exact absurd ha (hf i c)

/-- C3: when the feature is enabled and a key is configured but every
attempt against the classification endpoint fails (non-200 or
transport/parsing fault), `is_stock_related` returns `(false, "")` and its
effect trace is exactly `max_retries` endpoint invocations with no
`sleep` between them. -/
theorem classify_all_attempts_fail (cfg : Config) (attempts : Nat → ApiAttempt)
    (text : String) (hen : cfg.enabled = true)
    (hkey : optTruthy cfg.api_key = true)
    (hf : ∀ j c, attempts j ≠ .ok c) :
    is_stock_related cfg attempts text
      = ((false, ""), List.replicate cfg.max_retries
          (.callEndpoint (classifyPrompt text))) := by
  unfold is_stock_related
  rw [hen, hkey]
  simp only [Bool.not_true, Bool.or_self, Bool.false_eq_true, if_false]
  exact classifyGo_allfail _ _ _ cfg.max_retries 0 (by omega) hf

theorem classify_all_attempts_fail_witness :
    is_stock_related sampleConfig (fun _ => .fault) "hi"
      = ((false, ""), List.replicate 3 (.callEndpoint (classifyPrompt "hi"))) :=
  classify_all_attempts_fail sampleConfig (fun _ => .fault) "hi" rfl rfl
    (fun _ _ h => ApiAttempt.noConfusion h)

theorem classifyGo_ok_at (maxr : Nat) (attempts : Nat → ApiAttempt)
    (prompt content : String) :
    ∀ k fuel i, fuel + i = maxr → i + k < maxr →
      attempts (i + k) = .ok content →
      (∀ j, j < k → ∀ c, attempts (i + j) ≠ .ok c) →
      (classifyGo maxr attempts prompt fuel i).1
        = (!containsSub (pyStrip content) "不相关", pyStrip content) := by
  intro k
  induction k with
  | zero =>
    intro fuel i hfi hlt hok _
    obtain ⟨f, rfl⟩ : ∃ f, fuel = f + 1 := ⟨fuel - 1, by omega⟩
    rw [Nat.add_zero] at hok
    unfold classifyGo
    rw [hok]
  | succ k ih =>
    intro fuel i hfi hlt hok hnot
    obtain ⟨f, rfl⟩ : ∃ f, fuel = f + 1 := ⟨fuel - 1, by omega⟩
    have hok' : attempts (i + 1 + k) = .ok content := by
      have he : i + 1 + k = i + (k + 1) := by omega
      rw [he]; exact hok
    have hnot' : ∀ j, j < k → ∀ c, attempts (i + 1 + j) ≠ .ok c := by
      intro j hj c
      have he : i + 1 + j = i + (j + 1) := by omega
      rw [he]; exact hnot (j + 1) (by omega) c
    unfold classifyGo
    rcases ha : attempts i with _ | code | c
    · rw [if_pos (show i < maxr - 1 by omega)]
      exact ih f (i + 1) (by omega) (by omega) hok' hnot'
    · rw [if_pos (show i < maxr - 1 by omega)]
      exact ih f (i + 1) (by omega) (by omega) hok' hnot'
    · exact absurd ha (hnot 0 (by omega) c)

/-- C4: whenever a model reply is received with HTTP 200 (at whatever
attempt, all earlier ones having failed), `is_related` is `false` iff the
stripped reply contains the substring `不相关`, and the returned analysis
is the stripped reply. -/
theorem classify_relevance_substring (cfg : Config) (attempts : Nat → ApiAttempt)
    (text content : String) (i : Nat) (hen : cfg.enabled = true)
    (hkey : optTruthy cfg.api_key = true) (hi : i < cfg.max_retries)
    (hok : attempts i = .ok content)
    (hbefore : ∀ j, j < i → ∀ c, attempts j ≠ .ok c) :
    ((is_stock_related cfg attempts text).1.1 = false ↔
        containsSub (pyStrip content) "不相关" = true) ∧
    (is_stock_related cfg attempts text).1.2 = pyStrip content := by
  unfold is_stock_related
  rw [hen, hkey]
  simp only [Bool.not_true, Bool.or_self, Bool.false_eq_true, if_false]
  have h := classifyGo_ok_at cfg.max_retries attempts (classifyPrompt text)
    content i cfg.max_retries 0 (by omega) (by omega)
    (by simpa using hok) (fun j hj c => by simpa using hbefore j hj c)
  rw [h]
  refine ⟨?_, rfl⟩
  rcases hc : containsSub (pyStrip content) "不相关" <;> simp [hc]

theorem classify_relevance_substring_witness :
    (((is_stock_related sampleConfig (fun _ => .ok " 不相关 ") "t").1.1 = false ↔
        containsSub (pyStrip " 不相关 ") "不相关" = true) ∧
      (is_stock_related sampleConfig (fun _ => .ok " 不相关 ") "t").1.2
        = pyStrip " 不相关 ") :=
  classify_relevance_substring sampleConfig (fun _ => .ok " 不相关 ") "t"
    " 不相关 " 0 rfl rfl (by decide) rfl
    (fun j hj _ => absurd hj (Nat.not_lt_zero j))

end StockPush
